import Mathlib

/-!
Verification of the ingestion/classification/signal pipeline of the freedomAi
repository (`backend/data_layer/ton_indexer.py`, `backend/ai_layer/agentic_ai.py`,
`backend/config.py`).

Python dictionaries are embedded as structures whose fields carry `Option` when
the corresponding key may be absent (`dict.get` with a default becomes
`Option.getD`).  Python floats holding TON amounts are embedded as rationals
(`ℚ`); the numeric comparisons of the source are pure threshold tests, so the
rational embedding reflects them faithfully.  Timestamps produced by
`datetime.utcnow()`, log strings and Kafka plumbing are side effects that carry
no decision logic and are not modelled; every field that feeds a branch of the
source is kept.
-/

/-! ## String containment

Python's `"exchange" in destination.lower()` substring test, embedded on
`List Char`. -/

/-- The needle `n` matches at the head of `h`: embeds the initial-segment
comparison Python performs at one candidate offset. -/
def leadMatch : List Char → List Char → Bool
  | [], _ => true
  | _ :: _, [] => false
  | c :: cs, d :: ds => c == d && leadMatch cs ds

/-- The needle occurs at some offset of the haystack: Python's `in` on strings. -/
def hasSubstring (needle : List Char) : List Char → Bool
  | [] => leadMatch needle []
  | c :: cs => leadMatch needle (c :: cs) || hasSubstring needle cs

/-- Embeds Python `needle in hay` as `strContains hay needle`. -/
def strContains (hay needle : String) : Bool :=
  hasSubstring needle.toList hay.toList

theorem leadMatch_iff (n h : List Char) :
    leadMatch n h = true ↔ ∃ q, h = n ++ q := by
  induction n generalizing h with
  | nil => simp [leadMatch]
  | cons c cs ih =>
    cases h with
    | nil => simp [leadMatch]
    | cons d ds =>
      simp only [leadMatch, Bool.and_eq_true, beq_iff_eq, ih, List.cons_append,
        List.cons.injEq]
      constructor
      · rintro ⟨rfl, q, rfl⟩; exact ⟨q, rfl, rfl⟩
      · rintro ⟨q, rfl, rfl⟩; exact ⟨rfl, q, rfl⟩

theorem hasSubstring_iff (n h : List Char) :
    hasSubstring n h = true ↔ ∃ p q, h = p ++ n ++ q := by
  induction h with
  | nil =>
    simp only [hasSubstring, leadMatch_iff]
    constructor
    · rintro ⟨q, hq⟩; exact ⟨[], q, by simpa using hq⟩
    · rintro ⟨p, q, hpq⟩
      have hnil : p = [] ∧ n = [] ∧ q = [] := by
        simpa [List.append_eq_nil] using hpq.symm
      exact ⟨[], by simp [hnil.2.1]⟩
  | cons c cs ih =>
    simp only [hasSubstring, Bool.or_eq_true, leadMatch_iff, ih]
    constructor
    · rintro (⟨q, hq⟩ | ⟨p, q, hpq⟩)
      · exact ⟨[], q, by simpa using hq⟩
      · exact ⟨c :: p, q, by simp [hpq]⟩
    · rintro ⟨p, q, hpq⟩
      cases p with
      | nil => exact Or.inl ⟨q, by simpa using hpq⟩
      | cons x xs =>
        simp only [List.cons_append, List.cons.injEq] at hpq
        exact Or.inr ⟨xs, q, hpq.2⟩

/-! ## Data model of the AI layer (`agentic_ai.py`)

Transactions reaching `AnomalyDetector` are dicts read through
`tx.get("value_ton", 0)`; the field below carries the result of that read. -/

/-- A transaction as seen by `AnomalyDetector`: only `value_ton` is read. -/
structure Tx where
  value_ton : ℚ := 0
deriving DecidableEq, Repr

/-- An anomaly dict as built by the three `detect_*` methods of
`AnomalyDetector`.  `wallet` / `transaction` model the keys that only some
anomaly kinds set (`dict.get` on a missing key yields the default).  The
`reason` and `detected_at` entries are log strings / wall-clock timestamps
carrying no decision logic and are not modelled. -/
structure Anomaly where
  type : String
  severity : String
  wallet : Option String := none
  transaction : Option Tx := none
deriving DecidableEq, Repr

/-- Embeds `AnomalyDetector.detect_transaction_anomalies`: for a nonempty batch,
compute `avg_value = sum(values)/len(values)` and flag each transaction with
`value > avg_value * 10` as a `large_transaction` anomaly of severity
`high`. -/
def detect_transaction_anomalies (transactions : List Tx) : List Anomaly :=
  if transactions.isEmpty then []
  else
    let values := transactions.map fun tx => tx.value_ton
    let avg_value := values.sum / (values.length : ℚ)
    transactions.filterMap fun tx =>
      if tx.value_ton > avg_value * 10 then
        some { type := "large_transaction", severity := "high", transaction := some tx }
      else none

/-- Embeds `AnomalyDetector.detect_wallet_anomalies`: empty activity returns no
anomalies; otherwise `len(recent_activity) > 100` appends a
`high_frequency_trading` anomaly (severity `medium`) and
`sum(value_ton) > 1000000` appends a `large_volume` anomaly (severity
`high`), in that order. -/
def detect_wallet_anomalies (wallet : String) (recent_activity : List Tx) :
    List Anomaly :=
  if recent_activity.isEmpty then []
  else
    (if recent_activity.length > 100 then
      [{ type := "high_frequency_trading", severity := "medium", wallet := some wallet }]
    else []) ++
    (if (recent_activity.map fun tx => tx.value_ton).sum > 1000000 then
      [{ type := "large_volume", severity := "high", wallet := some wallet }]
    else [])

/-- The `network_stats` dict passed to `detect_network_anomalies`; only the
`transaction_volume` key is read (default `0`). -/
structure NetworkStats where
  transaction_volume : Option ℚ := none
deriving DecidableEq, Repr

/-- The mutable state of `AnomalyDetector`.  `baseline_metrics` is the
`avg_tx_volume` entry of the `self.baseline_metrics` dict; `__init__` sets the
dict to `{}` (entry absent, embedded as `none`) and no method of the class ever
writes to it.  The unused `anomaly_threshold = 2.5` attribute is read by no
method and is omitted. -/
structure AnomalyDetector where
  baseline_metrics : Option ℚ := none
deriving DecidableEq, Repr

/-- The anomaly dict built by `detect_network_anomalies` when it fires. -/
def networkActivityAnomaly : Anomaly :=
  { type := "high_network_activity", severity := "medium" }

/-- Embeds `AnomalyDetector.detect_network_anomalies`: fires exactly when
`tx_volume > baseline_metrics.get("avg_tx_volume", 0) * 3`.  The method reads
`self.baseline_metrics` and never assigns to it, so the detector state is
returned unchanged. -/
def detect_network_anomalies (d : AnomalyDetector) (network_stats : NetworkStats) :
    List Anomaly × AnomalyDetector :=
  let tx_volume := network_stats.transaction_volume.getD 0
  let anomalies :=
    if tx_volume > (d.baseline_metrics.getD 0) * 3 then [networkActivityAnomaly] else []
  (anomalies, d)

/-! ## Signal generator (`SignalGenerator` in `agentic_ai.py`) -/

/-- A signal dict as built by the three `generate_*_signal` methods.  `title`,
`description`, `created_at` and the echoed `data` payload are formatted
strings / timestamps / copies of the input and are not modelled; every field
whose value a branch of the source decides is kept. -/
structure Signal where
  signal_type : String
  sentiment : String
  confidence : ℚ
  severity : String
  creator : String
  tags : List String
  related_entities : List (Option String)
deriving DecidableEq, Repr

/-- The whale-transaction dict passed to `generate_whale_signal`, carrying the
results of the reads the method performs: `get("value_ton", 0)`,
`get("source")` (default `None`) and `get("destination", "")`. -/
structure WhaleTxInput where
  value_ton : ℚ := 0
  source : Option String := none
  destination : String := ""
deriving DecidableEq, Repr

/-- Embeds `SignalGenerator.generate_whale_signal`, with `self.signal_history` passed
explicitly: classifies by `"exchange" in destination.lower()`, fixes confidence
`0.75`, severity `high` when `value > 1000000` else `medium`, and appends the
signal to the history. -/
def generate_whale_signal (signal_history : List Signal) (whale_tx : WhaleTxInput) :
    Signal × List Signal :=
  let value := whale_tx.value_ton
  let destination := whale_tx.destination
  let typeSent : String × String :=
    if strContains destination.toLower "exchange" then ("whale_to_exchange", "bearish")
    else ("whale_accumulation", "bullish")
  let signal : Signal :=
    { signal_type := typeSent.1
      sentiment := typeSent.2
      confidence := 3 / 4
      severity := if value > 1000000 then "high" else "medium"
      creator := "ai_agent"
      tags := ["whale", "on-chain", typeSent.1]
      related_entities := [whale_tx.source, some destination] }
  (signal, signal_history ++ [signal])

/-- The sentiment dict passed to `generate_sentiment_signal`: reads
`get("overall_sentiment", "neutral")` and `get("confidence", 0.5)`. -/
structure SentimentData where
  overall_sentiment : Option String := none
  confidence : Option ℚ := none
deriving DecidableEq, Repr

/-- Embeds `SignalGenerator.generate_sentiment_signal`: severity `high` when the
sentiment is bullish or bearish with confidence above `0.7`, else `low`; the
input confidence value is copied into the signal unchanged. -/
def generate_sentiment_signal (signal_history : List Signal)
    (sentiment_data : SentimentData) : Signal × List Signal :=
  let overall := sentiment_data.overall_sentiment.getD "neutral"
  let confidence := sentiment_data.confidence.getD (1 / 2)
  let severity :=
    if overall = "bullish" ∧ confidence > 7 / 10 then "high"
    else if overall = "bearish" ∧ confidence > 7 / 10 then "high"
    else "low"
  let signal : Signal :=
    { signal_type := "sentiment_analysis"
      sentiment := overall
      confidence := confidence
      severity := severity
      creator := "ai_agent"
      tags := ["sentiment", "off-chain", "social"]
      related_entities := [] }
  (signal, signal_history ++ [signal])

/-- Embeds `SignalGenerator.generate_anomaly_signal`: fixed confidence `0.8`,
severity copied from the anomaly (`get("severity", "medium")`: the detector
always sets it), related entity `get("wallet", "")`. -/
def generate_anomaly_signal (signal_history : List Signal) (anomaly : Anomaly) :
    Signal × List Signal :=
  let signal : Signal :=
    { signal_type := "anomaly_detection"
      sentiment := "neutral"
      confidence := 4 / 5
      severity := anomaly.severity
      creator := "ai_agent"
      tags := ["anomaly", "alert", anomaly.type]
      related_entities := [some (anomaly.wallet.getD "")] }
  (signal, signal_history ++ [signal])

/-! ## Indexer data model (`ton_indexer.py`)

`process_transaction` reads the raw per-transaction dict through
`tx.get("in_msg", {})`, `in_msg.get("source", {}).get("address")`,
`in_msg.get("destination", {}).get("address")` and `int(in_msg.get("value", 0))`.
A missing key defaults as in the source; a present but unparseable `value`
makes `int(...)` raise, which the method's `try/except` turns into skipping
that transaction.  The `value` field below is therefore `none` when the key is
absent (defaulting to `0`), `some none` when present but unparseable, and
`some (some v)` when it parses to the integer `v`. -/

/-- The `in_msg` dict of a raw transaction. -/
structure InMsg where
  source : Option String := none
  destination : Option String := none
  value : Option (Option Int) := none
deriving DecidableEq, Repr

/-- A raw transaction dict as fetched from the chain API. -/
structure RawTx where
  hash : Option String := none
  utime : Option Int := none
  in_msg : Option InMsg := none
deriving DecidableEq, Repr

/-- The result of `int(in_msg.get("value", 0))`: `none` when the call raises. -/
def parsedValue (m : InMsg) : Option Int :=
  match m.value with
  | none => some 0
  | some none => none
  | some (some v) => some v

/-- The TON amount `value / 1e9` derived by `process_transaction`, when the
value parses. -/
def derivedValueTon (tx : RawTx) : Option ℚ :=
  (parsedValue (tx.in_msg.getD {})).map fun v => (v : ℚ) / 1000000000

/-- The `transaction_data` dict `process_transaction` publishes to the
transactions topic.  The derived `datetime` string duplicates `timestamp` and
is not modelled. -/
structure TxRecord where
  hash : Option String
  timestamp : Int
  source : Option String
  destination : Option String
  value_nano : Int
  value_ton : ℚ
  block : Int
deriving DecidableEq, Repr

/-- The whale-alert dict built by `process_whale_alert` from the transaction
record (`detected_at` is a wall-clock timestamp, not modelled). -/
structure WhaleAlert where
  record : TxRecord
  alert_type : String
  severity : String
deriving DecidableEq, Repr

/-- Outcome of `process_transaction` for one raw transaction: the `try/except`
swallows a parse failure before anything is published (`parseError`), a
derived value below `1.0` TON returns early publishing nothing
(`dustSkipped`), and otherwise the transaction record is published together
with a whale alert exactly when the threshold check fires. -/
inductive ProcessResult where
  | parseError : ProcessResult
  | dustSkipped : ProcessResult
  | published : TxRecord → Option WhaleAlert → ProcessResult
deriving DecidableEq, Repr

/-- Embeds `settings.WHALE_ALERT_THRESHOLD_TON` (config default `100000.0`). -/
def WHALE_ALERT_THRESHOLD_TON : ℚ := 100000

/-- Embeds `TONIndexer.process_transaction`, parameterised by the configured whale
threshold and by `self.last_processed_block` (the cursor value while this
block's transactions are processed, stored into the record's `block` field).
Publishing is modelled by the returned `ProcessResult`.  The logging calls
(including the log line of `process_whale_alert`, which runs after the alert
is already sent) have no effect on what is published and are not modelled. -/
def process_transaction (whale_threshold : ℚ) (last_processed_block : Int)
    (tx : RawTx) : ProcessResult :=
  let in_msg := tx.in_msg.getD {}
  match parsedValue in_msg with
  | none => .parseError
  | some value =>
    let value_ton : ℚ := (value : ℚ) / 1000000000
    if value_ton < 1 then .dustSkipped
    else
      let record : TxRecord :=
        { hash := tx.hash
          timestamp := tx.utime.getD 0
          source := in_msg.source
          destination := in_msg.destination
          value_nano := value
          value_ton := value_ton
          block := last_processed_block }
      let whale : Option WhaleAlert :=
        if value_ton ≥ whale_threshold then
          some { record := record
                 alert_type := "whale_movement"
                 severity := if value_ton > 1000000 then "high" else "medium" }
        else none
      .published record whale

/-- The transaction records published by one `process_transaction` call. -/
def publishedRecords : ProcessResult → List TxRecord
  | .published r _ => [r]
  | _ => []

/-- The whale alerts published by one `process_transaction` call. -/
def whaleAlerts : ProcessResult → List WhaleAlert
  | .published _ (some w) => [w]
  | _ => []

/-- The `for tx in transactions` loop of `TONIndexer.run` over one block:
each transaction is processed independently (exceptions are caught inside
`process_transaction`, so one failing record never stops the loop). -/
def process_block (whale_threshold : ℚ) (block : Int) (transactions : List RawTx) :
    List ProcessResult :=
  transactions.map (process_transaction whale_threshold block)

/-! ## Cursor / poll loop (`TONIndexer.run`)

The chain API is modelled as a function `fetch : Int → Option (List RawTx)`:
`fetch h = none` means the HTTP request for block `h`'s transactions raises,
`fetch h = some txs` that it returns `txs`. -/

/-- Embeds `TONIndexer.get_block_transactions`: the `try/except` turns a failed fetch
into the empty list. -/
def get_block_transactions (fetch : Int → Option (List RawTx)) (block_number : Int) :
    List RawTx :=
  (fetch block_number).getD []

/-- The cursor state of the indexer loop.  `processed` is a ghost log recording,
for each loop iteration, the height handled and the transaction list obtained
for it — exactly what the body of the `while` loop feeds to
`process_transaction` and to the per-block log line. -/
structure IndexerState where
  last_processed_block : Int
  processed : List (Int × List RawTx)
deriving DecidableEq, Repr

/-- One iteration of the `while self.last_processed_block < latest_block` body:
the cursor is incremented first, then the (incremented) height's transactions
are fetched and handled. -/
def stepBlock (fetch : Int → Option (List RawTx)) (s : IndexerState) : IndexerState :=
  let h := s.last_processed_block + 1
  let transactions := get_block_transactions fetch h
  { last_processed_block := h
    processed := s.processed ++ [(h, transactions)] }

/-- The `while self.last_processed_block < latest_block` loop, run with explicit
fuel.  Each iteration increments the cursor by exactly one, so the loop
performs exactly `(latest_block - last_processed_block).toNat` iterations;
`catchUp` below supplies that exact fuel, and the guard is still tested before
every iteration, so surplus fuel would change nothing. -/
def catchUpAux (fetch : Int → Option (List RawTx)) (latest_block : Int) :
    Nat → IndexerState → IndexerState
  | 0, s => s
  | fuel + 1, s =>
    if s.last_processed_block < latest_block then
      catchUpAux fetch latest_block fuel (stepBlock fetch s)
    else s

/-- The catch-up phase of one cycle of `TONIndexer.run`: process every height
from `last_processed_block + 1` up to `latest_block`. -/
def catchUp (fetch : Int → Option (List RawTx)) (latest_block : Int)
    (s : IndexerState) : IndexerState :=
  catchUpAux fetch latest_block (latest_block - s.last_processed_block).toNat s

/-- One full cycle of `TONIndexer.run`: `get_latest_block` either returns the
chain head (`some latest`) or, when its request raises, the current cursor
value (`none` here), in which case the inner `while` loop runs zero times. -/
def run_cycle (latest : Option Int) (fetch : Int → Option (List RawTx))
    (s : IndexerState) : IndexerState :=
  catchUp fetch (latest.getD s.last_processed_block) s

/-- Spec-side description of what the loop does to the log: the heights
`start+1, …, start+n` in order, each paired with the fetch result for it
(empty on fetch failure). -/
def blockLog (fetch : Int → Option (List RawTx)) (start : Int) :
    Nat → List (Int × List RawTx)
  | 0 => []
  | n + 1 => (start + 1, (fetch (start + 1)).getD []) :: blockLog fetch (start + 1) n

/-! ## Shared helper lemmas and concrete inputs -/

/-- Pulling a guarded `filterMap` apart into `filter` followed by `map`. -/
theorem filterMap_guard_eq_filter_map {α β : Type} (p : α → Prop) [DecidablePred p]
    (f : α → β) (l : List α) :
    (l.filterMap fun a => if p a then some (f a) else none) =
      (l.filter fun a => p a).map f := by
  induction l with
  | nil => rfl
  | cons a t ih =>
    by_cases h : p a <;> simp [List.filterMap_cons, List.filter_cons, h, ih]

/-- A detector fresh out of `AnomalyDetector.__init__`: `baseline_metrics = {}`. -/
def freshDetector : AnomalyDetector := {}

/-- A sentiment payload whose confidence lies outside `[0, 1]`. -/
def unclampedSentiment : SentimentData :=
  { overall_sentiment := some "bullish", confidence := some 2 }

/-- A 200,000 TON whale transaction replayed against the signal emitter. -/
def replayWhaleTx : WhaleTxInput :=
  { value_ton := 200000, source := some "srcA", destination := "destB" }

/-! ## Claim theorems -/

/-- Claim C3, counterexample.  A detector fresh out of `__init__` has observed
zero batches — fewer than any positive warm-up count — yet
`detect_network_anomalies` already fires a `high_network_activity` anomaly on a
batch of volume `100`, because the absent baseline defaults to `0` and
`100 > 0 * 3`.  The claim's warm-up suppression does not exist in the code. -/
theorem network_anomaly_fires_without_warmup :
    freshDetector.baseline_metrics = none ∧
    (detect_network_anomalies freshDetector { transaction_volume := some 100 }).1 =
      [networkActivityAnomaly] ∧
    networkActivityAnomaly.type = "high_network_activity" ∧
    networkActivityAnomaly.severity = "medium" := by
  refine ⟨rfl, ?_, rfl, rfl⟩
  have hfire : (detect_network_anomalies freshDetector
      { transaction_volume := some 100 }).1 =
      if (100 : ℚ) > 0 * 3 then [networkActivityAnomaly] else [] := rfl
  rw [hfire, if_pos (by norm_num)]

/-- Claim C3, amended.  There is no warm-up: `detect_network_anomalies` emits
one `high_network_activity` anomaly of severity `medium` exactly when the
batch's transaction volume exceeds `3 ×` the stored `avg_tx_volume` entry
(which defaults to `0` when absent), independently of how many batches the
detector has seen. -/
theorem network_anomaly_characterization (d : AnomalyDetector)
    (network_stats : NetworkStats) :
    ((detect_network_anomalies d network_stats).1 = [networkActivityAnomaly] ↔
      network_stats.transaction_volume.getD 0 > d.baseline_metrics.getD 0 * 3) ∧
    ((detect_network_anomalies d network_stats).1 = [] ↔
      ¬ network_stats.transaction_volume.getD 0 > d.baseline_metrics.getD 0 * 3) ∧
    networkActivityAnomaly.severity = "medium" ∧
    networkActivityAnomaly.type = "high_network_activity" := by
  have hfire : (detect_network_anomalies d network_stats).1 =
      if network_stats.transaction_volume.getD 0 > d.baseline_metrics.getD 0 * 3
      then [networkActivityAnomaly] else [] := rfl
  refine ⟨?_, ?_, rfl, rfl⟩ <;> rw [hfire] <;> split_ifs with h <;> simp [h]

/-- Claim C9, counterexample.  Processing a batch of volume `1000` leaves the
detector state — in particular the `avg_tx_volume` baseline entry — exactly as
it was (still absent): no exponential-moving-average update happens, although
any EMA with positive weight absorbing the observation `1000` from a zero
baseline would yield a positive average. -/
theorem baseline_unchanged_after_batch :
    (detect_network_anomalies freshDetector { transaction_volume := some 1000 }).2 =
      freshDetector ∧
    ((detect_network_anomalies freshDetector
        { transaction_volume := some 1000 }).2).baseline_metrics = none :=
  ⟨rfl, rfl⟩

/-- Claim C9, amended.  The network baseline is never updated: `__init__` sets
`baseline_metrics` to the empty dict and `detect_network_anomalies` (the only
method reading it) returns with the detector state unchanged after every batch,
anomaly or not; no exponential moving average exists in the code. -/
theorem network_baseline_never_updated (d : AnomalyDetector)
    (network_stats : NetworkStats) :
    (detect_network_anomalies d network_stats).2 = d ∧
    ((detect_network_anomalies d network_stats).2).baseline_metrics =
      d.baseline_metrics :=
  ⟨rfl, rfl⟩

/-- Claim C7, counterexample.  `generate_sentiment_signal` copies the input
confidence into the signal unchanged: on input confidence `2` the emitted
signal's confidence is `2`, which lies outside `[0, 1]`, so no clamping to
`[0, 1]` takes place. -/
theorem sentiment_confidence_not_clamped :
    (generate_sentiment_signal [] unclampedSentiment).1.confidence = 2 ∧
    ¬ ((2 : ℚ) ≤ 1) :=
  ⟨rfl, by norm_num⟩

/-- Claim C7, amended.  Confidence is source-determined: every whale signal has
confidence `0.75` and every anomaly signal `0.8`; a sentiment signal copies the
input confidence value (default `0.5` when the key is absent) without
clamping. -/
theorem signal_confidence_sources (hist1 hist2 hist3 : List Signal)
    (whale_tx : WhaleTxInput) (anomaly : Anomaly) (sentiment_data : SentimentData) :
    (generate_whale_signal hist1 whale_tx).1.confidence = 3 / 4 ∧
    (generate_anomaly_signal hist2 anomaly).1.confidence = 4 / 5 ∧
    (generate_sentiment_signal hist3 sentiment_data).1.confidence =
      sentiment_data.confidence.getD (1 / 2) :=
  ⟨rfl, rfl, rfl⟩

/-- Claim C2, counterexample.  Re-submitting the identical whale transaction to
the emitter produces a second signal equal to the first in every field (so in
particular any key derived from its content coincides) and the history grows to
length `2`: nothing is dropped.  No recent-key set, and no `dedupKey`, exists
in the code. -/
theorem emitter_no_dedup_on_replay :
    ((generate_whale_signal ((generate_whale_signal [] replayWhaleTx).2)
        replayWhaleTx).2).length = 2 ∧
    (generate_whale_signal ((generate_whale_signal [] replayWhaleTx).2)
        replayWhaleTx).1 = (generate_whale_signal [] replayWhaleTx).1 :=
  ⟨rfl, rfl⟩

/-- Claim C2, amended.  The emitter performs no deduplication: the signal built
for an input does not depend on the history at all, and every emission —
including an exact replay of an already-emitted input — is appended to
`signal_history`. -/
theorem emitter_appends_every_emission (hist hist2 : List Signal)
    (whale_tx : WhaleTxInput) (anomaly : Anomaly) :
    (generate_whale_signal hist whale_tx).1 = (generate_whale_signal hist2 whale_tx).1 ∧
    (generate_whale_signal hist whale_tx).2 =
      hist ++ [(generate_whale_signal hist whale_tx).1] ∧
    (generate_anomaly_signal hist anomaly).1 =
      (generate_anomaly_signal hist2 anomaly).1 ∧
    (generate_anomaly_signal hist anomaly).2 =
      hist ++ [(generate_anomaly_signal hist anomaly).1] :=
  ⟨rfl, rfl, rfl, rfl⟩

/-- Mean `value_ton` of a batch, written as the spec words it:
`mean(valueTon over batch)`. -/
def batchMean (transactions : List Tx) : ℚ :=
  (transactions.map fun tx => tx.value_ton).sum / (transactions.length : ℚ)

/-- Flag-by-threshold step of the large-transaction check, as filter-then-map. -/
theorem filterMap_flag (avg : ℚ) (f : Tx → Anomaly) (l : List Tx) :
    (l.filterMap fun tx => if tx.value_ton > avg * 10 then some (f tx) else none) =
      (l.filter fun tx => 10 * avg < tx.value_ton).map f := by
  induction l with
  | nil => rfl
  | cons a t ih =>
    rw [List.filterMap_cons, List.filter_cons]
    by_cases h : a.value_ton > avg * 10
    · rw [if_pos h, if_pos (by simpa [mul_comm] using h), List.map_cons, ih]
    · rw [if_neg h, if_neg (by simpa [mul_comm] using h), ih]

/-- Claim C5.  The per-batch large-transaction check flags exactly the
transactions whose `value_ton` exceeds `10 ×` the batch mean, each as one
`large_transaction` anomaly of severity `high`; in particular the batch of
`100` one-TON transactions plus one `2000`-TON transaction yields exactly that
one anomaly (mean `2100/101 ≈ 20.79`, threshold `≈ 207.9`), and the batch
`[10, 10, 10, 10, 50]` yields none (mean `18`, threshold `180`). -/
theorem large_transaction_anomaly_spec :
    (∀ transactions : List Tx,
      detect_transaction_anomalies transactions =
        (transactions.filter fun tx => 10 * batchMean transactions < tx.value_ton).map
          fun tx => { type := "large_transaction", severity := "high",
                      transaction := some tx }) ∧
    detect_transaction_anomalies
        (List.replicate 100 { value_ton := 1 } ++ [{ value_ton := 2000 }]) =
      [{ type := "large_transaction", severity := "high",
         transaction := some { value_ton := 2000 } }] ∧
    detect_transaction_anomalies
      [{ value_ton := 10 }, { value_ton := 10 }, { value_ton := 10 },
       { value_ton := 10 }, { value_ton := 50 }] = [] := by
  refine ⟨fun transactions => ?_, ?_, ?_⟩
  · by_cases hE : transactions.isEmpty = true
    · have h0 : transactions = [] := by simpa using hE
      subst h0; rfl
    · have hfm : detect_transaction_anomalies transactions =
          transactions.filterMap fun tx =>
            if tx.value_ton > ((transactions.map fun tx => tx.value_ton).sum /
                (((transactions.map fun tx => tx.value_ton).length : ℕ) : ℚ)) * 10 then
              some { type := "large_transaction", severity := "high",
                     transaction := some tx }
            else none := by
        unfold detect_transaction_anomalies
        rw [if_neg hE]
      rw [hfm, filterMap_flag]
      congr 1
      apply List.filter_congr
      intro a _
      have hlen : ((transactions.map fun tx => tx.value_ton).length : ℚ) =
          (transactions.length : ℚ) := by rw [List.length_map]
      simp [batchMean, hlen]
  · norm_num [detect_transaction_anomalies, List.filterMap_append,
      List.filterMap_cons, List.sum_replicate, List.filterMap_replicate]
  · norm_num [detect_transaction_anomalies, List.filterMap_cons]

/-- Claim C6.  Per wallet and activity window, the wallet check emits exactly
one `high_frequency_trading` anomaly (severity `medium`) precisely when the
recent transaction count exceeds `100` — so it fires at `101` and not at
`100` — and exactly one `large_volume` anomaly (severity `high`) precisely when
the recent volume exceeds `1,000,000` TON; the two checks are independent and
can both fire for the same wallet in the same cycle. -/
theorem wallet_anomaly_spec :
    (∀ (wallet : String) (recent_activity : List Tx),
      ((detect_wallet_anomalies wallet recent_activity).countP
          fun a => a.type == "high_frequency_trading") =
        (if recent_activity.length > 100 then 1 else 0) ∧
      ((detect_wallet_anomalies wallet recent_activity).countP
          fun a => a.type == "large_volume") =
        (if (recent_activity.map fun tx => tx.value_ton).sum > 1000000 then 1
         else 0)) ∧
    detect_wallet_anomalies "w1" (List.replicate 101 { value_ton := 1 }) =
      [{ type := "high_frequency_trading", severity := "medium",
         wallet := some "w1" }] ∧
    detect_wallet_anomalies "w1" (List.replicate 100 { value_ton := 1 }) = [] ∧
    detect_wallet_anomalies "w1" (List.replicate 101 { value_ton := 20000 }) =
      [{ type := "high_frequency_trading", severity := "medium",
         wallet := some "w1" },
       { type := "large_volume", severity := "high", wallet := some "w1" }] := by
  refine ⟨fun wallet recent_activity => ?_, ?_, ?_, ?_⟩
  · by_cases hE : recent_activity.isEmpty = true
    · have h0 : recent_activity = [] := by simpa using hE
      subst h0
      norm_num [detect_wallet_anomalies]
    · have hfire : detect_wallet_anomalies wallet recent_activity =
          (if recent_activity.length > 100 then
            [{ type := "high_frequency_trading", severity := "medium",
               wallet := some wallet }]
          else []) ++
          (if (recent_activity.map fun tx => tx.value_ton).sum > 1000000 then
            [{ type := "large_volume", severity := "high", wallet := some wallet }]
          else []) := by
        unfold detect_wallet_anomalies
        rw [if_neg hE]
      rw [hfire]
      constructor <;>
        split_ifs with h1 h2 <;>
          simp_all [List.countP_append, List.countP_cons]
  all_goals norm_num [detect_wallet_anomalies, List.sum_replicate, nsmul_eq_mul]

/-- Claim C10.  The whale signal's type and sentiment depend only on whether
the lowercased destination contains the substring `"exchange"`: if it does, the
signal is `whale_to_exchange` with sentiment `bearish`, otherwise
`whale_accumulation` with sentiment `bullish`; the history, the source address
and the transferred value never affect this choice. -/
theorem whale_signal_destination_only (hist hist2 : List Signal) (v v2 : ℚ)
    (src src2 : Option String) (dest : String) :
    (((generate_whale_signal hist
          { value_ton := v, source := src, destination := dest }).1.signal_type =
            "whale_to_exchange" ∧
      (generate_whale_signal hist
          { value_ton := v, source := src, destination := dest }).1.sentiment =
            "bearish") ↔
      ∃ p q, dest.toLower.toList = p ++ "exchange".toList ++ q) ∧
    (((generate_whale_signal hist
          { value_ton := v, source := src, destination := dest }).1.signal_type =
            "whale_accumulation" ∧
      (generate_whale_signal hist
          { value_ton := v, source := src, destination := dest }).1.sentiment =
            "bullish") ↔
      ¬ ∃ p q, dest.toLower.toList = p ++ "exchange".toList ++ q) ∧
    (generate_whale_signal hist2
        { value_ton := v2, source := src2, destination := dest }).1.signal_type =
      (generate_whale_signal hist
        { value_ton := v, source := src, destination := dest }).1.signal_type ∧
    (generate_whale_signal hist2
        { value_ton := v2, source := src2, destination := dest }).1.sentiment =
      (generate_whale_signal hist
        { value_ton := v, source := src, destination := dest }).1.sentiment := by
  have key : strContains dest.toLower "exchange" = true ↔
      ∃ p q, dest.toLower.toList = p ++ "exchange".toList ++ q := by
    rw [strContains]
    exact hasSubstring_iff _ _
  by_cases h : strContains dest.toLower "exchange" = true
  · obtain ⟨p, q, hpq⟩ := key.mp h
    refine ⟨?_, ?_, ?_, ?_⟩ <;> simp [generate_whale_signal, h]
    all_goals exact ⟨p, q, by simpa using hpq⟩
  · rw [← key]
    refine ⟨?_, ?_, ?_, ?_⟩ <;> simp [generate_whale_signal, h]

/-! ## Concrete indexer inputs -/

/-- A well-formed 200,000 TON raw transaction. -/
def whaleRawTx : RawTx :=
  { hash := some "txA", utime := some 1700000000,
    in_msg := some { source := some "walletA", destination := some "walletB",
                     value := some (some 200000000000000) } }

/-- A 5 TON raw transaction whose `in_msg` carries no address fields. -/
def noAddressTx : RawTx :=
  { hash := some "txB", utime := some 1700000100,
    in_msg := some { value := some (some 5000000000) } }

/-- A raw transaction of 5 nanoTON (far below the 1 TON dust cutoff). -/
def dustTx : RawTx :=
  { hash := some "txD", utime := some 1700000300,
    in_msg := some { source := some "walletE", destination := some "walletF",
                     value := some (some 5) } }

/-- A raw transaction carrying no `in_msg` at all (so no `value` key). -/
def noValueTx : RawTx := { hash := some "txE", utime := some 1700000400 }

/-- A raw transaction whose `value` entry is present but unparseable, making
`int(...)` raise. -/
def badValueTx : RawTx :=
  { hash := some "txF", utime := some 1700000500,
    in_msg := some { source := some "walletG", destination := some "walletH",
                     value := some none } }

/-- A well-formed 3 TON raw transaction. -/
def goodTx : RawTx :=
  { hash := some "txC", utime := some 1700000200,
    in_msg := some { source := some "walletC", destination := some "walletD",
                     value := some (some 3000000000) } }

/-- A chain API for which fetching block 1's transactions fails and every other
block holds one good transaction. -/
def failingFetch : Int → Option (List RawTx) :=
  fun h => if h = 1 then none else some [goodTx]

/-! ## Indexer claim theorems -/

/-- Claim C4.  For every transaction whose value parses, if the derived TON
amount reaches the (default) whale threshold `100000` then processing it emits
exactly one whale alert, whose severity is `high` iff the amount exceeds
`1000000` and `medium` otherwise; below the threshold no whale alert is
emitted. -/
theorem whale_alert_determinism (block : Int) (tx : RawTx) (v : ℚ)
    (hv : derivedValueTon tx = some v) :
    (WHALE_ALERT_THRESHOLD_TON ≤ v →
      (whaleAlerts (process_transaction WHALE_ALERT_THRESHOLD_TON block tx)).length
          = 1 ∧
      ∀ w ∈ whaleAlerts (process_transaction WHALE_ALERT_THRESHOLD_TON block tx),
        w.alert_type = "whale_movement" ∧
        (w.severity = "high" ↔ 1000000 < v) ∧
        (w.severity = "medium" ↔ ¬ 1000000 < v)) ∧
    (v < WHALE_ALERT_THRESHOLD_TON →
      whaleAlerts (process_transaction WHALE_ALERT_THRESHOLD_TON block tx) = []) := by
  cases hpv : parsedValue (tx.in_msg.getD {}) with
  | none =>
    exfalso
    rw [derivedValueTon, hpv] at hv
    simp at hv
  | some n =>
  have hv2 : (n : ℚ) / 1000000000 = v := by
    rw [derivedValueTon, hpv] at hv
    simpa using hv
  subst hv2
  constructor
  · intro hge
    rw [WHALE_ALERT_THRESHOLD_TON] at hge
    have h1 : ¬ ((n : ℚ) / 1000000000 < 1) := by intro hcon; linarith
    simp only [process_transaction, hpv]
    rw [if_neg h1, if_pos (by rw [WHALE_ALERT_THRESHOLD_TON]; exact hge)]
    by_cases h2 : (n : ℚ) / 1000000000 > 1000000
    · rw [if_pos h2]
      simp only [whaleAlerts, List.length_singleton, List.mem_singleton]
      refine ⟨trivial, ?_⟩
      rintro w rfl
      dsimp only
      exact ⟨rfl, ⟨fun _ => h2, fun _ => rfl⟩,
        ⟨fun hcon => absurd hcon (by decide), fun hcon => absurd h2 hcon⟩⟩
    · rw [if_neg h2]
      simp only [whaleAlerts, List.length_singleton, List.mem_singleton]
      refine ⟨trivial, ?_⟩
      rintro w rfl
      dsimp only
      exact ⟨rfl, ⟨fun hcon => absurd hcon (by decide), fun hcon => absurd hcon h2⟩,
        ⟨fun _ => h2, fun _ => rfl⟩⟩
  · intro hlt
    simp only [process_transaction, hpv]
    by_cases h1 : (n : ℚ) / 1000000000 < 1
    · rw [if_pos h1]
      rfl
    · rw [if_neg h1, if_neg (not_le.mpr hlt)]
      rfl

/-- Witness for C4 at a concrete 200,000 TON transaction: the threshold is met
and the emitted alert's severity is `medium` (since `200000 ≤ 1000000`). -/
theorem whale_alert_determinism_witness :
    (whaleAlerts (process_transaction WHALE_ALERT_THRESHOLD_TON 7 whaleRawTx)).length
        = 1 ∧
    ∀ w ∈ whaleAlerts (process_transaction WHALE_ALERT_THRESHOLD_TON 7 whaleRawTx),
      w.alert_type = "whale_movement" ∧
      (w.severity = "high" ↔ (1000000 : ℚ) < 200000) ∧
      (w.severity = "medium" ↔ ¬ (1000000 : ℚ) < 200000) :=
  (whale_alert_determinism 7 whaleRawTx 200000
      (by norm_num [derivedValueTon, parsedValue, whaleRawTx])).1
    (by rw [WHALE_ALERT_THRESHOLD_TON]; norm_num)

/-- Claim C8, counterexample.  A transaction with missing address fields is not
skipped: `noAddressTx` carries no `source`/`destination`, yet
`process_transaction` publishes its record (with `None` addresses) rather than
dropping it, contradicting the claim that entries with missing address fields
are skipped.  (No parse-error metric exists anywhere in the indexer either:
failures are only logged.) -/
theorem extractor_publishes_missing_address_tx :
    (noAddressTx.in_msg.getD {}).source = none ∧
    (noAddressTx.in_msg.getD {}).destination = none ∧
    process_transaction WHALE_ALERT_THRESHOLD_TON 3 noAddressTx =
      .published
        { hash := some "txB", timestamp := 1700000100, source := none,
          destination := none, value_nano := 5000000000, value_ton := 5,
          block := 3 } none := by
  refine ⟨rfl, rfl, ?_⟩
  norm_num [process_transaction, noAddressTx, parsedValue, WHALE_ALERT_THRESHOLD_TON]

/-- Claim C8, amended.  No record is published for a transaction whose derived
TON value is below `1.0`; a missing `value` key derives value `0` and is
dust-skipped; a `value` that fails to parse makes the per-transaction
`try/except` skip that transaction (with only an error log — no parse-error
metric exists) while the rest of the block is still processed, so a single bad
record never fails the block.  Entries with missing address fields, however,
are not skipped: they are published with `None` addresses. -/
theorem extractor_error_handling_spec :
    (∀ (b : Int) (tx : RawTx) (v : ℚ), derivedValueTon tx = some v → v < 1 →
      publishedRecords (process_transaction WHALE_ALERT_THRESHOLD_TON b tx) = [] ∧
      whaleAlerts (process_transaction WHALE_ALERT_THRESHOLD_TON b tx) = []) ∧
    (∀ (b : Int) (tx : RawTx), (tx.in_msg.getD {}).value = none →
      process_transaction WHALE_ALERT_THRESHOLD_TON b tx = .dustSkipped) ∧
    (∀ (b : Int) (tx : RawTx), parsedValue (tx.in_msg.getD {}) = none →
      process_transaction WHALE_ALERT_THRESHOLD_TON b tx = .parseError) ∧
    (∀ (b : Int) (pre post : List RawTx) (bad : RawTx),
      parsedValue (bad.in_msg.getD {}) = none →
      process_block WHALE_ALERT_THRESHOLD_TON b (pre ++ bad :: post) =
        process_block WHALE_ALERT_THRESHOLD_TON b pre ++
          .parseError :: process_block WHALE_ALERT_THRESHOLD_TON b post) := by
  refine ⟨?_, ?_, ?_, ?_⟩
  · intro b tx v hv hlt
    cases hpv : parsedValue (tx.in_msg.getD {}) with
    | none =>
      exfalso
      rw [derivedValueTon, hpv] at hv
      simp at hv
    | some n =>
      have hv2 : (n : ℚ) / 1000000000 = v := by
        rw [derivedValueTon, hpv] at hv
        simpa using hv
      subst hv2
      simp only [process_transaction, hpv]
      rw [if_pos hlt]
      exact ⟨rfl, rfl⟩
  · intro b tx hval
    simp only [process_transaction, parsedValue, hval]
    rw [if_pos (by norm_num)]
  · intro b tx hpv
    simp only [process_transaction, hpv]
  · intro b pre post bad hbad
    simp only [process_block, List.map_append, List.map_cons]
    simp only [process_transaction, hbad]

/-- Witness for C8 at concrete inputs: a 5-nanoTON dust transaction publishes
nothing, a transaction with no `value` key is dust-skipped, a transaction with
an unparseable `value` yields a parse error, and a block containing that bad
transaction between two good ones still processes both good ones. -/
theorem extractor_error_handling_spec_witness :
    (publishedRecords (process_transaction WHALE_ALERT_THRESHOLD_TON 1 dustTx) = [] ∧
      whaleAlerts (process_transaction WHALE_ALERT_THRESHOLD_TON 1 dustTx) = []) ∧
    process_transaction WHALE_ALERT_THRESHOLD_TON 1 noValueTx = .dustSkipped ∧
    process_transaction WHALE_ALERT_THRESHOLD_TON 1 badValueTx = .parseError ∧
    process_block WHALE_ALERT_THRESHOLD_TON 1 ([goodTx] ++ badValueTx :: [goodTx]) =
      process_block WHALE_ALERT_THRESHOLD_TON 1 [goodTx] ++
        .parseError :: process_block WHALE_ALERT_THRESHOLD_TON 1 [goodTx] :=
  ⟨extractor_error_handling_spec.1 1 dustTx ((5 : ℚ) / 1000000000)
      (by norm_num [derivedValueTon, parsedValue, dustTx]) (by norm_num),
   extractor_error_handling_spec.2.1 1 noValueTx rfl,
   extractor_error_handling_spec.2.2.1 1 badValueTx rfl,
   extractor_error_handling_spec.2.2.2 1 [goodTx] [goodTx] badValueTx rfl⟩

/-- Any sufficient fuel runs the catch-up loop to completion: the cursor ends
at `max` of its start and the chain head, and the log gains exactly one entry
per height from `start + 1` to `latest_block`, in order, holding the fetch
result for that height (empty on fetch failure). -/
theorem catchUpAux_spec (fetch : Int → Option (List RawTx)) (latest_block : Int)
    (fuel : Nat) :
    ∀ s : IndexerState,
      (latest_block - s.last_processed_block).toNat ≤ fuel →
      catchUpAux fetch latest_block fuel s =
        { last_processed_block := max s.last_processed_block latest_block,
          processed := s.processed ++
            blockLog fetch s.last_processed_block
              (latest_block - s.last_processed_block).toNat } := by
  induction fuel with
  | zero =>
    intro s hfuel
    have h0 : (latest_block - s.last_processed_block).toNat = 0 :=
      Nat.le_zero.mp hfuel
    have hle : latest_block ≤ s.last_processed_block := by omega
    simp [catchUpAux, h0, blockLog, max_eq_left hle]
  | succ m ih =>
    intro s hfuel
    by_cases hlt : s.last_processed_block < latest_block
    · have hstep : catchUpAux fetch latest_block (m + 1) s =
          catchUpAux fetch latest_block m (stepBlock fetch s) := by
        simp only [catchUpAux]
        rw [if_pos hlt]
      have hsb : (stepBlock fetch s).last_processed_block =
          s.last_processed_block + 1 := rfl
      rw [hstep, ih (stepBlock fetch s) (by rw [hsb]; omega)]
      have hmax : max (s.last_processed_block + 1) latest_block =
          max s.last_processed_block latest_block := by omega
      have hcnt : (latest_block - s.last_processed_block).toNat =
          (latest_block - (s.last_processed_block + 1)).toNat + 1 := by omega
      rw [hcnt]
      simp only [blockLog, stepBlock, get_block_transactions, hsb, hmax,
        List.append_assoc, List.singleton_append]
    · have h0 : (latest_block - s.last_processed_block).toNat = 0 := by omega
      simp only [catchUpAux]
      rw [if_neg hlt]
      simp [h0, blockLog, max_eq_left (not_lt.mp hlt)]

/-- Claim C1, amended.  The cursor is non-decreasing across a catch-up phase
and ends at the chain head (or stays put when already caught up); the loop
visits every height from `cursor + 1` to `latest` exactly once, in increasing
order, incrementing the cursor to a height *before* fetching that height's
transactions; when the fetch for a height fails, `get_block_transactions`
returns the empty list, the height is handled as an empty block and the cursor
still moves past it — a failed height is skipped, not retried. -/
theorem run_cursor_characterization (fetch : Int → Option (List RawTx))
    (latest_block : Int) (s : IndexerState) :
    s.last_processed_block ≤ (catchUp fetch latest_block s).last_processed_block ∧
    (catchUp fetch latest_block s).last_processed_block =
      max s.last_processed_block latest_block ∧
    (catchUp fetch latest_block s).processed =
      s.processed ++ blockLog fetch s.last_processed_block
        (latest_block - s.last_processed_block).toNat := by
  have h := catchUpAux_spec fetch latest_block
    (latest_block - s.last_processed_block).toNat s le_rfl
  rw [catchUp, h]
  exact ⟨le_max_left _ _, rfl, rfl⟩

/-- Claim C1, counterexample.  With a chain head at height `2` and the fetch
for height `1` failing, a catch-up run from cursor `0` ends with the cursor at
`2` and the log recording height `1` as processed with *no* transactions (the
chain actually holds `[goodTx]` at every height other than 1's failure):
the failed height is neither retried nor does it block cursor advancement, so
the claim's "on a fetch failure the cursor does not advance and the same
height is retried, so no block height is ever skipped" is false. -/
theorem run_skips_failed_height :
    failingFetch 1 = none ∧
    (catchUp failingFetch 2
        { last_processed_block := 0, processed := [] }).last_processed_block = 2 ∧
    (catchUp failingFetch 2
        { last_processed_block := 0, processed := [] }).processed =
      [(1, []), (2, [goodTx])] :=
  ⟨rfl, rfl, rfl⟩
